import Mathlib

/-!
# Verification of the simplified-Tetris environment shell

Shallow embedding of `src/gym_simplifiedtetris/envs/_simplified_tetris_base_env.py`
(`_SimplifiedTetrisBaseEnv`): construction-time validation, the derived action-space
table, and the `step` episode state machine.

The physics engine (`_SimplifiedTetrisEngine`) is an external collaborator whose
source is not part of the repository snapshot under `src/`; its operations appear
here as an abstract record of functions (`EngineOps`) with signatures modelled from
the spec's Engine contract, and the `step` control flow — which is in the source —
is embedded over them.  `step` additionally returns the ordered list of engine
method invocations it performs, mirroring the sequence of `self._engine.*` calls in
the Python source, so that claims about which engine operations run on which branch
can be stated.
-/

namespace SimplifiedTetris

/-! ## Construction-time validation (`__init__`, lines 50-90)

The source validates `piece_size`, then the length of `grid_dims`, then tests
`list[grid_dims] not in [[20, 10], [10, 10], [8, 6], [7, 4]]`.  In Python,
`list[grid_dims]` is `types.GenericAlias(list, grid_dims)` — a generic-alias
object, not the list of the dimensions — and a generic alias compares unequal
to every plain list.  We embed the two kinds of Python value that take part in
this comparison and Python's `==` on them. -/

/-- The Python values compared by the grid-dimension membership test: plain
lists of ints, and `types.GenericAlias` objects with origin `list` (produced by
the subscript expression `list[grid_dims]`). -/
inductive PyVal where
  | plainList (xs : List Int)
  | genericAlias (args : List Int)
deriving DecidableEq

/-- Python `==` restricted to the values above: two plain lists are equal iff
their elements are, two generic aliases iff their arguments are, and a generic
alias is never equal to a plain list (GenericAlias.__eq__ only compares with
other generic aliases). -/
def pyEq : PyVal → PyVal → Bool
  | PyVal.plainList xs, PyVal.plainList ys => xs == ys
  | PyVal.genericAlias xs, PyVal.genericAlias ys => xs == ys
  | _, _ => false

/-- The exceptions the constructor can raise: `ValueError` for a bad
`piece_size` (line 56), `IndexError` for a `grid_dims` of the wrong length
(line 59), `ValueError` for grid dimensions outside the whitelist (line 69). -/
inductive InitError where
  | pieceSizeValueError
  | gridDimsIndexError
  | gridDimsValueError
deriving DecidableEq

/-- The whitelist of supported grid dimension pairs from `__init__` line 63. -/
def gridDimsWhitelist : List (List Int) := [[20, 10], [10, 10], [8, 6], [7, 4]]

/-- The dictionary `{1: (W, 1), 2: (2W-1, 1), 3: (4W-4, 2), 4: (4W-6, 7)}`
indexed by `piece_size` (`__init__` lines 76-81), giving
`(num_actions, num_pieces)`.  `none` is the `KeyError` of a key outside the
dictionary (unreachable in the source because of the earlier check). -/
def numActionsPieces (pieceSize : Nat) (width : Int) : Option (Int × Nat) :=
  match pieceSize with
  | 1 => some (width, 1)
  | 2 => some (2 * width - 1, 1)
  | 3 => some (4 * width - 4, 2)
  | 4 => some (4 * width - 6, 7)
  | _ => none

/-- The configuration an (hypothetically) successful construction would store. -/
structure EnvConfig where
  height : Int
  width : Int
  pieceSize : Nat
  numActions : Int
  numPieces : Nat
deriving DecidableEq

/-- Embedding of `__init__` (lines 50-90).  The checks run in source order:
`piece_size not in [1, 2, 3, 4]`, then `len(grid_dims) != 2`, then
`list[grid_dims] not in [[20,10],[10,10],[8,6],[7,4]]` — where
`list[grid_dims]` is the generic alias, so this membership test is evaluated
with `pyEq` against `PyVal.genericAlias grid_dims`. -/
def initEnv (grid_dims : List Int) (piece_size : Nat) : Except InitError EnvConfig :=
  if piece_size ∈ [1, 2, 3, 4] then
    if grid_dims.length = 2 then
      if gridDimsWhitelist.any (fun l => pyEq (PyVal.genericAlias grid_dims) (PyVal.plainList l)) then
        match numActionsPieces piece_size (grid_dims.getD 1 0) with
        | some na_np =>
            Except.ok
              { height := grid_dims.getD 0 0
                width := grid_dims.getD 1 0
                pieceSize := piece_size
                numActions := na_np.1
                numPieces := na_np.2 }
        | none => Except.error InitError.pieceSizeValueError
      else Except.error InitError.gridDimsValueError
    else Except.error InitError.gridDimsIndexError
  else Except.error InitError.pieceSizeValueError

/-! ## Engine state and operations

The Engine source is not under `src/`; the shell's `step` drives it through the
method calls visible in `_simplified_tetris_base_env.py`.  Per the spec's Engine
contract, `rotate`, `hard_drop`, `update_grid` and `advance piece and anchor`
act on the physical state (grid occupancy, anchor, current piece), while the
score and the final-score history are separate fields the shell reads and
writes directly. -/

/-- Modelled from the spec: the physical part of the Engine state — the grid as
a `(width, height)`-indexed occupancy matrix (outer list = columns, inner index
= row, row 0 at the top, matching `_grid[:, :piece_size]` selecting the top
rows), the anchor `(translation, vertical offset)`, the piece's current
orientation, and an opaque remainder (piece identity, rng state, ...). -/
structure PhysState where
  grid : List (List Bool)
  anchor : Int × Int
  orientation : Nat
  engineRest : Nat
deriving DecidableEq

/-- The Engine state the shell observes and mutates: physical state, the
running score `_score`, and the append-only history `_final_scores`. -/
structure EngineState where
  phys : PhysState
  score : Nat
  finalScores : List Nat
deriving DecidableEq

/-- Modelled from the spec: the Engine methods invoked by `step`, as abstract
functions.  Missing from `src/`: `_get_translation_rotation`, `_rotate_piece`,
`_hard_drop`, `_update_grid`, `_get_reward`, `_update_coords_and_anchor` of
`_SimplifiedTetrisEngine`.  Signatures follow the spec's Engine contract:
decode is a pure function of the action index; rotate / hard-drop / grid-update
/ advance act on the physical state; the reward computation returns the reward
and the number of rows cleared and may clear lines (mutating the grid). -/
structure EngineOps where
  getTranslationRotation : Nat → Int × Nat
  rotatePiece : Nat → PhysState → PhysState
  hardDrop : PhysState → PhysState
  updateGrid : Bool → PhysState → PhysState
  getReward : PhysState → Rat × Nat × PhysState
  updateCoordsAndAnchor : PhysState → PhysState

/-! ## The step state machine (`step`, lines 107-145) -/

/-- One engine method invocation performed by `step`, in the order the source
makes them.  `step` returns the list of these so that which-operations-ran on
which branch is part of the embedded behaviour. -/
inductive EngineCall where
  | getTranslationRotation (action : Nat)
  | rotatePiece (rotation : Nat)
  | hardDrop
  | updateGrid (commit : Bool)
  | getReward
  | updateCoordsAndAnchor
deriving DecidableEq

/-- What `step` returns to the caller (the observation is produced by the
abstract method `_get_obs` of a concrete subclass and is omitted): reward,
done flag, and the `info` dictionary entries `"anchor"` and
`"num_rows_cleared"`. -/
structure StepResult where
  reward : Rat
  done : Bool
  infoAnchor : Int × Nat
  infoNumRowsCleared : Nat
deriving DecidableEq

/-- Embedding of the static method `_get_terminal_reward` (line 175): the
fixed terminal reward `0.0`. -/
def getTerminalReward : Rat := 0

/-- The test `np.any(self._engine._grid[:, : self._piece_size_])` (line 131):
some occupied cell lies in the topmost `pieceSize` rows. -/
def topRowsOccupied (grid : List (List Bool)) (pieceSize : Nat) : Bool :=
  grid.any (fun col => (col.take pieceSize).any (fun b => b))

/-- The physical state just before the hard drop (lines 120-123): the piece is
rotated to the decoded rotation and the anchor set to
`[translation, piece_size - 1]`. -/
def preDropPhys (ops : EngineOps) (pieceSize : Nat) (s : EngineState) (action : Nat) :
    PhysState :=
  let tr := ops.getTranslationRotation action
  { ops.rotatePiece tr.2 s.phys with anchor := (tr.1, (pieceSize : Int) - 1) }

/-- The physical state after `_hard_drop()` and `_update_grid(True)`
(lines 126-127), against which the termination check is made. -/
def postDropPhys (ops : EngineOps) (pieceSize : Nat) (s : EngineState) (action : Nat) :
    PhysState :=
  ops.updateGrid true (ops.hardDrop (preDropPhys ops pieceSize s action))

/-- Embedding of `step` (lines 107-145).  Decode the action, rotate the piece,
set the anchor, hard-drop, bake the grid; if any occupied cell is in the top
`pieceSize` rows, append the running score to `_final_scores` and return the
terminal reward with `done = True` and `num_rows_cleared = 0`; otherwise get
`(reward, num_rows_cleared)` from the engine, add the cleared rows to the
score, advance piece and anchor, and return `done = False`.  The third
component is the ordered list of engine calls made. -/
def step (ops : EngineOps) (pieceSize : Nat) (s : EngineState) (action : Nat) :
    StepResult × EngineState × List EngineCall :=
  let tr := ops.getTranslationRotation action
  let dropped := postDropPhys ops pieceSize s action
  let callsSoFar : List EngineCall :=
    [EngineCall.getTranslationRotation action, EngineCall.rotatePiece tr.2,
     EngineCall.hardDrop, EngineCall.updateGrid true]
  if topRowsOccupied dropped.grid pieceSize then
    ({ reward := getTerminalReward, done := true, infoAnchor := tr,
       infoNumRowsCleared := 0 },
     { phys := dropped, score := s.score, finalScores := s.finalScores ++ [s.score] },
     callsSoFar)
  else
    let r := ops.getReward dropped
    let advanced := ops.updateCoordsAndAnchor r.2.2
    ({ reward := r.1, done := false, infoAnchor := tr,
       infoNumRowsCleared := r.2.1 },
     { phys := advanced, score := s.score + r.2.1, finalScores := s.finalScores },
     callsSoFar ++ [EngineCall.getReward, EngineCall.updateCoordsAndAnchor])

/-! ## Spec-modelled action decoding and invalid-action handling

The Engine's `_get_translation_rotation` is not under `src/`.  The spec pins
its contract: a deterministic enumeration of `(translation, rotation)` pairs,
fixed at construction, total and injective on `[0, num_actions)`, with the
precise order an implementation choice; and out-of-range indices must fail
fast with an invalid-action error rather than wrap or clamp. -/

/-- Modelled from the spec: the Engine's `_get_translation_rotation` (missing
from `src/`), as the canonical enumeration with translation = index mod width
and rotation = index div width — one concrete instance of the deterministic
enumeration the spec requires, used to settle the decoding claims. -/
def getTranslationRotationModel (width a : Nat) : Nat × Nat :=
  (a % width, a / width)

/-- The invalid-action failure of the spec's error-handling design. -/
inductive StepError where
  | invalidAction
deriving DecidableEq

/-- Modelled from the spec: the fail-fast decoding of an action index —
indices in `[0, num_actions)` decode via the enumeration, anything else fails
with `InvalidAction` (no wrapping, no clamping). -/
def getTranslationRotationChecked (numActions width a : Nat) :
    Except StepError (Nat × Nat) :=
  if a < numActions then Except.ok (getTranslationRotationModel width a)
  else Except.error StepError.invalidAction

/-- Lift a decoded pair into the abstract engine's decode slot, so the checked
step below can reuse `step` for the in-range path. -/
def withDecode (ops : EngineOps) (tr : Nat × Nat) : EngineOps :=
  { ops with getTranslationRotation := fun _ => ((tr.1 : Int), tr.2) }

/-- Embedding of `step` with the spec-modelled fail-fast decode in place of
the abstract one.  In the source, the decode call (line 120) is the first
engine interaction of `step` — before the rotation, anchor write, drop and
grid update — so when it raises, the exception propagates with the episode
state untouched: the error branch returns the state unchanged. -/
def stepChecked (ops : EngineOps) (numActions width pieceSize : Nat)
    (s : EngineState) (a : Nat) :
    EngineState × Except StepError (StepResult × List EngineCall) :=
  match getTranslationRotationChecked numActions width a with
  | Except.error e => (s, Except.error e)
  | Except.ok tr =>
      let out := step (withDecode ops tr) pieceSize s a
      (out.2.1, Except.ok (out.1, out.2.2))

/-! ## Concrete engine instances for evaluating the theorems -/

/-- A minimal concrete engine: every physical operation is the identity, the
decode returns `(0, 0)`, and the reward computation reports no cleared rows.
Used only to evaluate the `step` theorems at concrete inputs. -/
def exOps : EngineOps where
  getTranslationRotation := fun _ => (0, 0)
  rotatePiece := fun _ p => p
  hardDrop := fun p => p
  updateGrid := fun _ p => p
  getReward := fun p => (0, 0, p)
  updateCoordsAndAnchor := fun p => p

/-- A one-cell grid whose single cell is occupied: with `pieceSize = 1` the
top row is occupied, so a step from here terminates. -/
def exStateTop : EngineState where
  phys := { grid := [[true]], anchor := (0, 0), orientation := 0, engineRest := 0 }
  score := 3
  finalScores := [5]

/-- A one-cell grid whose single cell is empty: with `pieceSize = 1` the top
row is free, so a step from here does not terminate. -/
def exStateBottom : EngineState where
  phys := { grid := [[false]], anchor := (0, 0), orientation := 0, engineRest := 0 }
  score := 3
  finalScores := [5]

/-! ## Theorems -/

/-- C2 (code bug): constructing with the whitelisted `grid_dims = (20, 10)` and a
valid `piece_size = 4` nevertheless raises the grid-dimensions `ValueError`,
because `list[grid_dims]` is a generic alias that compares unequal to every
plain list, so the membership test always fails.  The claim (and the spec's
stated intent) says whitelisted pairs must construct without error. -/
theorem construction_rejects_whitelisted_dims :
    initEnv [20, 10] 4 = Except.error InitError.gridDimsValueError := rfl

/-- C3: the derived `(num_actions, num_pieces)` pair equals the piecewise
closed form: `W` actions and 1 piece for size 1, `2W - 1` and 1 for size 2,
`4W - 4` and 2 for size 3, `4W - 6` and 7 for size 4. -/
theorem num_actions_pieces_closed_form (W : Int) :
    numActionsPieces 1 W = some (W, 1) ∧
    numActionsPieces 2 W = some (2 * W - 1, 1) ∧
    numActionsPieces 3 W = some (4 * W - 4, 2) ∧
    numActionsPieces 4 W = some (4 * W - 6, 7) :=
  ⟨rfl, rfl, rfl, rfl⟩

/-- C6: construction fails with the piece-size `ValueError` exactly when
`piece_size ∉ {1, 2, 3, 4}`; for any `piece_size` in that set the piece-size
check never rejects (any failure is one of the grid-dimension errors). -/
theorem piece_size_check_iff (grid_dims : List Int) (piece_size : Nat) :
    initEnv grid_dims piece_size = Except.error InitError.pieceSizeValueError ↔
      piece_size ∉ [1, 2, 3, 4] := by
  by_cases hp : piece_size ∈ [1, 2, 3, 4]
  · by_cases hl : grid_dims.length = 2
    · simp [initEnv, hp, hl, gridDimsWhitelist, pyEq]
    · simp [initEnv, hp, hl]
  · simp [initEnv, hp]

/-- C8: for a fixed configuration the decoding enumeration is a deterministic
function (it is a function of the index) and is injective: two indices that
decode to the same `(translation, rotation)` pair are equal. -/
theorem decode_deterministic_injective (width a b : Nat)
    (hab : getTranslationRotationModel width a = getTranslationRotationModel width b) :
    a = b := by
  have h1 : a % width = b % width := congrArg Prod.fst hab
  have h2 : a / width = b / width := congrArg Prod.snd hab
  calc a = width * (a / width) + a % width := (Nat.div_add_mod a width).symm
    _ = width * (b / width) + b % width := by rw [h1, h2]
    _ = b := Nat.div_add_mod b width

/-- Witness for C8 at width 6 and index 7. -/
theorem decode_deterministic_injective_example :
    getTranslationRotationModel 6 7 = getTranslationRotationModel 6 7 ∧
      (7 : Nat) = 7 :=
  ⟨rfl, decode_deterministic_injective 6 7 7 rfl⟩

/-- C9: a step on an action index outside `[0, num_actions)` fails fast with
the invalid-action error and returns the episode state unchanged — no
wrapping, no clamping, no mutation. -/
theorem step_invalid_action_fails_fast (ops : EngineOps)
    (numActions width pieceSize : Nat) (s : EngineState) (a : Nat)
    (h : ¬ a < numActions) :
    stepChecked ops numActions width pieceSize s a =
      (s, Except.error StepError.invalidAction) := by
  simp [stepChecked, getTranslationRotationChecked, h]

/-- Witness for C9: action 18 on an 18-action configuration. -/
theorem step_invalid_action_fails_fast_example :
    ¬ (18 < 18) ∧
      stepChecked exOps 18 6 4 exStateBottom 18 =
        (exStateBottom, Except.error StepError.invalidAction) :=
  ⟨by decide,
   step_invalid_action_fails_fast exOps 18 6 4 exStateBottom 18 (by decide)⟩

/-- C1: a step is terminal exactly when, after the hard drop and grid update,
some occupied cell lies in the topmost `pieceSize` rows; on a terminal step
the reward is the terminal reward, which is exactly 0, the reported
`num_rows_cleared` is 0, and the reward/line-clear computation is never
reached (no `getReward` call happens on that step). -/
theorem step_done_iff_top_rows (ops : EngineOps) (pieceSize : Nat)
    (s : EngineState) (a : Nat) :
    ((step ops pieceSize s a).1.done = true ↔
      topRowsOccupied (postDropPhys ops pieceSize s a).grid pieceSize = true) ∧
    ((step ops pieceSize s a).1.done = true →
      (step ops pieceSize s a).1.reward = getTerminalReward ∧
      getTerminalReward = 0 ∧
      (step ops pieceSize s a).1.infoNumRowsCleared = 0 ∧
      EngineCall.getReward ∉ (step ops pieceSize s a).2.2) := by
  unfold step
  by_cases h : topRowsOccupied (postDropPhys ops pieceSize s a).grid pieceSize
  · simp [h, getTerminalReward]
  · simp [h]

/-- Witness for C1: a terminal step on the occupied one-cell grid. -/
theorem step_done_iff_top_rows_example :
    (step exOps 1 exStateTop 0).1.done = true ∧
    (step exOps 1 exStateTop 0).1.reward = getTerminalReward ∧
    getTerminalReward = 0 ∧
    (step exOps 1 exStateTop 0).1.infoNumRowsCleared = 0 ∧
    EngineCall.getReward ∉ (step exOps 1 exStateTop 0).2.2 := by
  have h := step_done_iff_top_rows exOps 1 exStateTop 0
  have hd : (step exOps 1 exStateTop 0).1.done = true := h.1.mpr rfl
  exact ⟨hd, h.2 hd⟩

/-- C4: `final_scores` gains exactly one entry — the score accumulated before
the step — precisely on a terminal step, and is unchanged by a non-terminal
step; its length grows by 1 exactly when the step is terminal. -/
theorem step_final_scores_append_iff_done (ops : EngineOps) (pieceSize : Nat)
    (s : EngineState) (a : Nat) :
    (step ops pieceSize s a).2.1.finalScores =
      (if (step ops pieceSize s a).1.done then s.finalScores ++ [s.score]
       else s.finalScores) ∧
    (step ops pieceSize s a).2.1.finalScores.length =
      s.finalScores.length + (if (step ops pieceSize s a).1.done then 1 else 0) := by
  unfold step
  by_cases h : topRowsOccupied (postDropPhys ops pieceSize s a).grid pieceSize
  · simp [h]
  · simp [h]

/-- C5: on a non-terminal step the running score increases by exactly the
engine's reported `num_rows_cleared`, the reward and `num_rows_cleared` of the
result are the engine's, the returned info carries the decoded anchor pair,
`done = False`, and the physical state is advanced to the next piece by
`_update_coords_and_anchor` applied after the line-clear evaluation. -/
theorem step_nonterminal_accounting (ops : EngineOps) (pieceSize : Nat)
    (s : EngineState) (a : Nat)
    (h : topRowsOccupied (postDropPhys ops pieceSize s a).grid pieceSize = false) :
    (step ops pieceSize s a).1.done = false ∧
    (step ops pieceSize s a).2.1.score =
      s.score + (ops.getReward (postDropPhys ops pieceSize s a)).2.1 ∧
    (step ops pieceSize s a).1.reward =
      (ops.getReward (postDropPhys ops pieceSize s a)).1 ∧
    (step ops pieceSize s a).1.infoNumRowsCleared =
      (ops.getReward (postDropPhys ops pieceSize s a)).2.1 ∧
    (step ops pieceSize s a).1.infoAnchor = ops.getTranslationRotation a ∧
    (step ops pieceSize s a).2.1.phys =
      ops.updateCoordsAndAnchor (ops.getReward (postDropPhys ops pieceSize s a)).2.2 := by
  unfold step
  simp [h]

/-- Witness for C5: a non-terminal step on the empty one-cell grid. -/
theorem step_nonterminal_accounting_example :
    topRowsOccupied (postDropPhys exOps 1 exStateBottom 0).grid 1 = false ∧
    ((step exOps 1 exStateBottom 0).1.done = false ∧
     (step exOps 1 exStateBottom 0).2.1.score =
       exStateBottom.score + (exOps.getReward (postDropPhys exOps 1 exStateBottom 0)).2.1 ∧
     (step exOps 1 exStateBottom 0).1.reward =
       (exOps.getReward (postDropPhys exOps 1 exStateBottom 0)).1 ∧
     (step exOps 1 exStateBottom 0).1.infoNumRowsCleared =
       (exOps.getReward (postDropPhys exOps 1 exStateBottom 0)).2.1 ∧
     (step exOps 1 exStateBottom 0).1.infoAnchor = exOps.getTranslationRotation 0 ∧
     (step exOps 1 exStateBottom 0).2.1.phys =
       exOps.updateCoordsAndAnchor
         (exOps.getReward (postDropPhys exOps 1 exStateBottom 0)).2.2) :=
  ⟨rfl, step_nonterminal_accounting exOps 1 exStateBottom 0 rfl⟩

/-- C7: before the hard drop the engine's anchor is exactly
`(translation, piece_size - 1)` for the decoded translation, the post-drop
state is the hard drop followed by the grid update applied to that very
state, and the returned `info` anchor equals the decoded
`(translation, rotation)` pair on every step, terminal or not. -/
theorem step_anchor_setting (ops : EngineOps) (pieceSize : Nat)
    (s : EngineState) (a : Nat) :
    (preDropPhys ops pieceSize s a).anchor =
      ((ops.getTranslationRotation a).1, (pieceSize : Int) - 1) ∧
    postDropPhys ops pieceSize s a =
      ops.updateGrid true (ops.hardDrop (preDropPhys ops pieceSize s a)) ∧
    (step ops pieceSize s a).1.infoAnchor = ops.getTranslationRotation a := by
  refine ⟨rfl, rfl, ?_⟩
  unfold step
  by_cases h : topRowsOccupied (postDropPhys ops pieceSize s a).grid pieceSize
  · simp [h]
  · simp [h]

/-- C10: on a terminal step the shell does no accounting beyond appending the
final score: the running score is unchanged, the physical state is exactly
the post-drop state (no piece/anchor advance), and the engine calls made are
exactly decode, rotate, hard drop and grid update — neither the reward
computation nor `_update_coords_and_anchor` is invoked. -/
theorem step_terminal_frame (ops : EngineOps) (pieceSize : Nat)
    (s : EngineState) (a : Nat)
    (h : topRowsOccupied (postDropPhys ops pieceSize s a).grid pieceSize = true) :
    (step ops pieceSize s a).2.1.score = s.score ∧
    (step ops pieceSize s a).2.1.phys = postDropPhys ops pieceSize s a ∧
    (step ops pieceSize s a).2.2 =
      [EngineCall.getTranslationRotation a,
       EngineCall.rotatePiece (ops.getTranslationRotation a).2,
       EngineCall.hardDrop, EngineCall.updateGrid true] ∧
    EngineCall.getReward ∉ (step ops pieceSize s a).2.2 ∧
    EngineCall.updateCoordsAndAnchor ∉ (step ops pieceSize s a).2.2 := by
  unfold step
  simp [h]

/-- Witness for C10: the terminal step on the occupied one-cell grid. -/
theorem step_terminal_frame_example :
    topRowsOccupied (postDropPhys exOps 1 exStateTop 0).grid 1 = true ∧
    ((step exOps 1 exStateTop 0).2.1.score = exStateTop.score ∧
     (step exOps 1 exStateTop 0).2.1.phys = postDropPhys exOps 1 exStateTop 0 ∧
     (step exOps 1 exStateTop 0).2.2 =
       [EngineCall.getTranslationRotation 0,
        EngineCall.rotatePiece (exOps.getTranslationRotation 0).2,
        EngineCall.hardDrop, EngineCall.updateGrid true] ∧
     EngineCall.getReward ∉ (step exOps 1 exStateTop 0).2.2 ∧
     EngineCall.updateCoordsAndAnchor ∉ (step exOps 1 exStateTop 0).2.2) :=
  ⟨rfl, step_terminal_frame exOps 1 exStateTop 0 rfl⟩

end SimplifiedTetris
